import Mathlib

/-!
Verification development for the Antigravity Scout/Sniper coordination
subsystem: a shallow embedding of the Scout polling engine (`scout.js`),
the Sniper booking executor (`sniper.js`) and the orchestration server
(the WebSocket "Hive" in `fingerprint_spoof.js`), together with theorems
about the embedded operations.

Machine integers are modelled as `Nat` (all the quantities involved —
timestamps, counters, HTTP status codes — are non-negative and far from
any overflow boundary in the source). JavaScript `null`/`undefined`
becomes `Option`, thrown-and-caught exceptions become `Except`, and the
ad-hoc result objects become tagged variants.
-/

/-! ## String helpers (JS `String.prototype.includes`) -/

/-- Boolean prefix test on character lists. -/
def isPrefixB : List Char → List Char → Bool
  | [], _ => true
  | _ :: _, [] => false
  | a :: as, b :: bs => a == b && isPrefixB as bs

/-- Boolean infix (contiguous-substring) test on character lists. -/
def isInfixB : List Char → List Char → Bool
  | needle, [] => isPrefixB needle []
  | needle, c :: rest => isPrefixB needle (c :: rest) || isInfixB needle rest

/-- `strContains hay needle` models JavaScript `hay.includes(needle)`
(case-sensitive contiguous substring). -/
def strContains (hay needle : String) : Bool :=
  isInfixB needle.toList hay.toList

/-- `hay` contains at least one of the `needles` as a substring. -/
def containsAny (hay : String) (needles : List String) : Bool :=
  needles.any (fun n => strContains hay n)

/-! ## Sniper data model (`sniper.js`) -/

/-- The tagged booking-attempt result produced by the Sniper
(`SNIPER_CONFIG.status` values `BOOKED`, `FAILED`, `PENDING`, `REDIRECT`,
`TOKEN_ERROR`, each result object carrying its extra fields). -/
inductive BookingResult where
  | booked (redirectUrl : Option String)
  | failed (reason : String)
  | pending (reason : String)
  | redirect (redirectUrl : Option String)
  | tokenError (reason : String)
  deriving DecidableEq, Repr

/-- Just the variant tag of a `BookingResult` (the `status` field of the
JS result object), used to compare against the variants the spec names. -/
inductive RTag where
  | booked | failed | pending | redirect | tokenError
  deriving DecidableEq, Repr

/-- Extracts the variant tag of a booking result. -/
def BookingResult.tag : BookingResult → RTag
  | .booked _ => .booked
  | .failed _ => .failed
  | .pending _ => .pending
  | .redirect _ => .redirect
  | .tokenError _ => .tokenError

/-- The observable part of the `fetch` response that
`analyzeBookingResponse` inspects: HTTP status, status text, the
`Location` header (`none` when absent), and the body text
(`.error` when `response.text()` throws). -/
structure SniperResponse where
  status : Nat
  statusText : String
  location : Option String
  bodyText : Except String String
  deriving Repr

/-- JS truthiness for the `Location` header value: `null`/absent and the
empty string are falsy. -/
def jsTruthyStr : Option String → Bool
  | none => false
  | some s => s ≠ ""

/-- Embedding of `analyzeBookingResponse(response, portal)` from
`sniper.js` lines 327–416: classifies the raw booking response. -/
def analyzeBookingResponse (r : SniperResponse) : BookingResult :=
  if r.status = 302 ∨ r.status = 301 then
    if jsTruthyStr r.location ∧
        containsAny (r.location.getD "") ["Payment", "Confirm", "Success"] then
      .booked r.location
    else
      .redirect r.location
  else if r.status = 200 then
    match r.bodyText with
    | .error _ => .pending "Could not parse response"
    | .ok text =>
      if containsAny text
          ["Payment", "Confirmation", "successfully", "booked", "appointment has been"] then
        .booked none
      else if containsAny text
          ["not available", "already booked", "error", "failed"] then
        .failed "Slot no longer available"
      else
        .pending "Response unclear, check manually"
  else if r.status = 429 then
    .failed "Rate limited (429)"
  else if r.status = 403 ∨ r.status = 401 then
    .failed "Authentication failed"
  else
    .failed ("HTTP " ++ toString r.status ++ ": " ++ r.statusText)

/-- The classifier exactly as the spec claim words it (used only to
refute the claim by comparison with the code's classifier): ambiguous
301/302 gives `Pending`; the 200 success phrases are only
"successfully", "booked", "appointment has been"; the failure phrases
decide `Failed` whenever present. -/
def claimedClassifier (r : SniperResponse) : RTag :=
  if r.status = 302 ∨ r.status = 301 then
    if jsTruthyStr r.location ∧
        containsAny (r.location.getD "") ["Payment", "Confirm", "Success"] then
      .booked
    else
      .pending
  else if r.status = 200 then
    match r.bodyText with
    | .error _ => .pending
    | .ok text =>
      if containsAny text ["not available", "already booked", "error", "failed"] then
        .failed
      else if containsAny text ["successfully", "booked", "appointment has been"] then
        .booked
      else
        .pending
  else
    .failed

/-- The classification table as amended to match the code, written from
the amended claim's words: 301/302 with a truthy `Location` containing
"Payment"/"Confirm"/"Success" is `Booked` with that URL; any other
301/302 is the distinct `Redirect` variant carrying the `Location`
value; a 200 body is first checked for the success phrases
"Payment", "Confirmation", "successfully", "booked",
"appointment has been" (→ `Booked`), only then for the failure phrases
"not available", "already booked", "error", "failed"
(→ `Failed "Slot no longer available"`), else
`Pending "Response unclear, check manually"`; an unreadable 200 body is
`Pending "Could not parse response"`; 429 is
`Failed "Rate limited (429)"`; 401/403 is
`Failed "Authentication failed"`; every other status is
`Failed "HTTP <code>: <statusText>"`. -/
def amendedClassifier (r : SniperResponse) : BookingResult :=
  if r.status = 301 ∨ r.status = 302 then
    if jsTruthyStr r.location ∧
        (containsAny (r.location.getD "") ["Payment"] ∨
         containsAny (r.location.getD "") ["Confirm"] ∨
         containsAny (r.location.getD "") ["Success"]) then
      .booked r.location
    else
      .redirect r.location
  else if r.status = 200 then
    match r.bodyText with
    | .error _ => .pending "Could not parse response"
    | .ok text =>
      if containsAny text ["Payment"] ∨ containsAny text ["Confirmation"] ∨
          containsAny text ["successfully"] ∨ containsAny text ["booked"] ∨
          containsAny text ["appointment has been"] then
        .booked none
      else if containsAny text ["not available"] ∨ containsAny text ["already booked"] ∨
          containsAny text ["error"] ∨ containsAny text ["failed"] then
        .failed "Slot no longer available"
      else
        .pending "Response unclear, check manually"
  else if r.status = 429 then
    .failed "Rate limited (429)"
  else if r.status = 401 ∨ r.status = 403 then
    .failed "Authentication failed"
  else
    .failed ("HTTP " ++ toString r.status ++ ": " ++ r.statusText)

/-! ## Sniper state and executor (`sniper.js`) -/

/-- `sniperState` from `sniper.js` lines 47–53. -/
structure SniperState where
  lastShot : Option Nat := none
  totalShots : Nat := 0
  successfulShots : Nat := 0
  failedShots : Nat := 0
  isExecuting : Bool := false
  deriving DecidableEq, Repr

/-- The token sources consulted by `extractVerificationToken`, in
fallback order: session headers, captured DOM data, a live request to
the page (which resolves `null` on any messaging error), and
`chrome.storage.local` (whose read may itself throw, caught and treated
as absent). The `url` field feeds `detectPortal`. -/
structure SniperSession where
  headersToken : Option String := none
  domToken : Option String := none
  pageToken : Option String := none
  storageToken : Except String (Option String) := .ok none
  url : String := ""
  deriving Repr

/-- JS truthiness filter for a token value: `null` and `""` are falsy. -/
def truthyToken (o : Option String) : Option String :=
  match o with
  | some t => if t = "" then none else some t
  | none => none

/-- Embedding of `extractVerificationToken(activeSession)` from
`sniper.js` lines 66–102: ordered fallback chain over the four token
sources, first truthy value wins, `none` if all fail. -/
def extractVerificationToken (s : SniperSession) : Option String :=
  match truthyToken s.headersToken with
  | some t => some t
  | none =>
    match truthyToken s.domToken with
    | some t => some t
    | none =>
      match truthyToken s.pageToken with
      | some t => some t
      | none =>
        match s.storageToken with
        | .ok o => truthyToken o
        | .error _ => none

/-- A portal endpoint configuration (`SNIPER_CONFIG.endpoints`). -/
structure Portal where
  base : String
  book : String
  deriving Repr

/-- `SNIPER_CONFIG.endpoints.morocco` (the fields `executeSniper` uses). -/
def moroccoPortal : Portal :=
  { base := "https://www.blsspainmorocco.net", book := "/MAR/appointment/NewAppointment" }

/-- `SNIPER_CONFIG.endpoints.portugal` (the fields `executeSniper` uses). -/
def portugalPortal : Portal :=
  { base := "https://www.blsportugal.com", book := "/PRT/appointment/NewAppointment" }

/-- Embedding of the Sniper's `detectPortal(activeSession)`
(`sniper.js` lines 157–163). -/
def detectPortal (s : SniperSession) : Portal :=
  if strContains s.url "blsportugal.com" then portugalPortal else moroccoPortal

/-- Everything outside world the single `executeSniper` run interacts
with: the session (token sources) and the outcome of the one `fetch`
(`.error` models a thrown network error, caught by the outer `catch`). -/
structure SniperEnv where
  session : SniperSession
  fetchResult : Except String SniperResponse
  deriving Repr

/-- Network side effects a Sniper run can emit: the single booking POST. -/
inductive SniperEvent where
  | bookingRequest (url : String)
  deriving DecidableEq, Repr

/-- Embedding of `executeSniper(slotData, activeSession)` from
`sniper.js` lines 242–318, as a function of the prior `sniperState`, the
environment and the current time. Returns the booking result, the
resulting `sniperState`, and the list of network requests issued. The
`finally` block that resets `isExecuting` is threaded through every
return path of the `try`/`catch`. -/
def executeSniper (st : SniperState) (env : SniperEnv) (now : Nat) :
    BookingResult × SniperState × List SniperEvent :=
  if st.isExecuting then
    (.pending "Already executing", st, [])
  else
    let st := { st with isExecuting := true, lastShot := some now,
                        totalShots := st.totalShots + 1 }
    match extractVerificationToken env.session with
    | none =>
      (.tokenError "Missing RequestVerificationToken",
       { st with failedShots := st.failedShots + 1, isExecuting := false }, [])
    | some _tok =>
      let portal := detectPortal env.session
      let bookingUrl := portal.base ++ portal.book
      match env.fetchResult with
      | .error msg =>
        (.failed msg,
         { st with failedShots := st.failedShots + 1, isExecuting := false },
         [.bookingRequest bookingUrl])
      | .ok resp =>
        let result := analyzeBookingResponse resp
        if result.tag = .booked then
          (result,
           { st with successfulShots := st.successfulShots + 1, isExecuting := false },
           [.bookingRequest bookingUrl])
        else
          (result,
           { st with failedShots := st.failedShots + 1, isExecuting := false },
           [.bookingRequest bookingUrl])

/-- Two calls to `executeSniper` racing within one single-threaded client
process: the first call runs its synchronous prefix (guard check plus the
`isExecuting`/`lastShot`/`totalShots` updates, which happen before its
first `await`), the second call then starts and observes that
intermediate state, and the first call completes. Returns both results,
the final state and all network events in order. -/
def concurrentExecuteSniper (st : SniperState) (env1 env2 : SniperEnv)
    (t1 t2 : Nat) :
    BookingResult × BookingResult × SniperState × List SniperEvent :=
  let stMid :=
    if st.isExecuting then st
    else { st with isExecuting := true, lastShot := some t1,
                   totalShots := st.totalShots + 1 }
  let second := executeSniper stMid env2 t2
  let first := executeSniper st env1 t1
  (first.1, second.1, first.2.1, first.2.2 ++ second.2.2)

/-- Counts the booking POSTs in an event list. -/
def countBookingRequests (evs : List SniperEvent) : Nat :=
  evs.length

/-! ## Scout data model (`scout.js`) -/

/-- `SCOUT_CONFIG.rateLimit.minInterval` (ms). -/
def minInterval : Nat := 10000

/-- `SCOUT_CONFIG.rateLimit.maxJitter` (ms). -/
def maxJitter : Nat := 5000

/-- `SCOUT_CONFIG.rateLimit.cooldownDuration` (ms). -/
def cooldownDuration : Nat := 60000

/-- `SCOUT_CONFIG.rateLimit.maxRetries`. -/
def maxRetries : Nat := 3

/-- `SCOUT_CONFIG.rateLimit.backoffMultiplier`. -/
def backoffMultiplier : Nat := 2

/-- A slot descriptor as carried through Scout results and server
messages (field-name normalization is out of scope; the Scout treats
slots opaquely). -/
structure Slot where
  date : String
  slotId : String
  time : String
  deriving DecidableEq, Repr

/-- The slice of the captured session the Scout consults. -/
structure SessionCtx where
  isAuthenticated : Bool
  deriving DecidableEq, Repr

/-- The `scoutState` module object from `scout.js` lines 57–68, plus the
module-level `activeSession` variable (which `checkSlotsSilent` reads
and `fetchActiveSession` writes). `pollIntervalSet` models whether the
(unused) `pollInterval` handle is non-null. -/
structure ScoutState where
  isPolling : Bool := false
  isPaused : Bool := false
  lastCheck : Option Nat := none
  nextCheck : Option Nat := none
  cooldownUntil : Option Nat := none
  consecutiveErrors : Nat := 0
  totalChecks : Nat := 0
  slotsFound : Nat := 0
  currentDataParam : Option String := none
  pollIntervalSet : Bool := false
  activeSession : Option SessionCtx := none
  deriving DecidableEq, Repr

/-- The JSON shapes `checkSlotsSilent` distinguishes in a parsed 2xx
body: `null`, a bare array, or an object with an optional `slots`
array (anything else behaves like an object without `slots`). -/
inductive SlotsJson where
  | null
  | arr (slots : List Slot)
  | obj (slots : Option (List Slot))
  deriving DecidableEq, Repr

/-- `data && (Array.isArray(data) ? data.length > 0 : data.slots?.length > 0)`
together with `Array.isArray(data) ? data : data.slots`: returns the
non-empty slot list when one is found. -/
def slotsOf : SlotsJson → Option (List Slot)
  | .null => none
  | .arr l => if 0 < l.length then some l else none
  | .obj o =>
    match o with
    | some l => if 0 < l.length then some l else none
    | none => none

/-- The network outcome of one probe `fetch`: either the call threw
(`fetchError`, caught by the `catch` block) or it returned a response
with a status, status text, and a body whose `json()` parse may throw. -/
inductive ScoutNet where
  | fetchError (msg : String)
  | response (status : Nat) (statusText : String) (body : Except String SlotsJson)
  deriving Repr

/-- Everything outside one `checkSlotsSilent` run: the outcome of the
`GET_SESSION` refresh (a thrown refresh is caught and keeps the old
`activeSession`), the `HANDLE_RATE_LIMIT` rotation reply (an `Except`
whose error models a thrown messaging failure, and whose payload is the
optional `action` string), and the probe network outcome. -/
structure ScoutEnv where
  sessionRefresh : Except String SessionCtx
  rotation : Except String (Option String)
  net : ScoutNet
  deriving Repr

/-- Whether the `HANDLE_RATE_LIMIT` reply was `{action: 'RESUME'}`
(a thrown rotation or any other reply counts as failure). -/
def rotationResumes (env : ScoutEnv) : Bool :=
  match env.rotation with
  | .ok (some a) => a == "RESUME"
  | _ => false

/-- The result objects `checkSlotsSilent` can return, as a tagged
variant: `COOLDOWN{remainingSeconds, proxyRotated?}`,
`ERROR{error, consecutiveErrors?}`, `FOUND{slots, count}`, `EMPTY`. -/
inductive ProbeResult where
  | cooldown (remainingSeconds : Nat) (proxyRotated : Option Bool)
  | error (msg : String) (consecutiveErrors : Option Nat)
  | found (slots : List Slot) (count : Nat)
  | empty
  deriving DecidableEq, Repr

/-- `Math.ceil((t - now) / 1000)` on naturals. -/
def ceilSeconds (ms : Nat) : Nat := (ms + 999) / 1000

/-- The `catch` block of `checkSlotsSilent` (`scout.js` lines 307–323):
increment `consecutiveErrors`; once it has reached `maxRetries`, set
`cooldownUntil := now + min (cooldownDuration * backoffMultiplier ^
(consecutiveErrors - maxRetries)) 300000`; return `ERROR`. -/
def scoutCatch (st : ScoutState) (now : Nat) (msg : String) :
    ProbeResult × ScoutState :=
  let n := st.consecutiveErrors + 1
  let st := { st with consecutiveErrors := n }
  let backoff := min (cooldownDuration * backoffMultiplier ^ (n - maxRetries)) 300000
  let st :=
    if maxRetries ≤ n then { st with cooldownUntil := some (now + backoff) }
    else st
  (.error msg (some n), st)

/-- The `await fetchActiveSession()` step with its `catch`: on success
the module-level `activeSession` is replaced, on a caught failure it is
kept. -/
def refreshedState (st : ScoutState) (env : ScoutEnv) : ScoutState :=
  match env.sessionRefresh with
  | .ok s => { st with activeSession := some s }
  | .error _ => st

/-- Embedding of the body of `checkSlotsSilent(dataParam, date)` from
`scout.js` lines 191–324 (everything after the cooldown guard, which is
split into the wrapper below) as a function of the scout state, the
current time and the environment, returning the probe result and the
updated state.

Path by path: the session refresh updates `activeSession` on success and is a
no-op on a caught failure; an unauthenticated (or absent) session gives
`ERROR "Not authenticated"`; otherwise `lastCheck`/`totalChecks` are
updated and the response is dispatched — 429 increments
`consecutiveErrors` and attempts rotation (`RESUME` clears the cooldown,
zeroes the error counter and returns a 2-second `COOLDOWN`; anything
else sets `cooldownUntil := now + cooldownDuration` and returns a
60-second `COOLDOWN`); any non-ok status or thrown fetch/parse goes
through `scoutCatch`; a parsed ok response zeroes `consecutiveErrors`
and returns `FOUND` (bumping `slotsFound`) or `EMPTY`. -/
def checkSlotsSilentBody (st : ScoutState) (now : Nat) (env : ScoutEnv) :
    ProbeResult × ScoutState :=
  let st := refreshedState st env
  match st.activeSession with
  | none => (.error "Not authenticated" none, st)
  | some s =>
    if ¬ s.isAuthenticated then
      (.error "Not authenticated" none, st)
    else
      let st := { st with lastCheck := some now, totalChecks := st.totalChecks + 1 }
      match env.net with
      | .fetchError msg => scoutCatch st now msg
      | .response status statusText body =>
        if status = 429 then
          let st := { st with consecutiveErrors := st.consecutiveErrors + 1 }
          if rotationResumes env then
            (.cooldown 2 (some true),
             { st with cooldownUntil := none, consecutiveErrors := 0 })
          else
            (.cooldown (cooldownDuration / 1000) (some false),
             { st with cooldownUntil := some (now + cooldownDuration) })
        else if ¬ (200 ≤ status ∧ status ≤ 299) then
          scoutCatch st now ("HTTP " ++ toString status ++ ": " ++ statusText)
        else
          match body with
          | .error msg => scoutCatch st now msg
          | .ok data =>
            let st := { st with consecutiveErrors := 0 }
            match slotsOf data with
            | some slots =>
              (.found slots slots.length, { st with slotsFound := st.slotsFound + 1 })
            | none => (.empty, st)

/-- The cooldown guard of `checkSlotsSilent` wrapped around the body
above (`scout.js` lines 182–189). -/
def checkSlotsSilent (st : ScoutState) (now : Nat) (env : ScoutEnv) :
    ProbeResult × ScoutState :=
  match st.cooldownUntil with
  | some t =>
    if now < t then
      (.cooldown (ceilSeconds (t - now)) none, st)
    else checkSlotsSilentBody st now env
  | none => checkSlotsSilentBody st now env

/-- The cooldown guard condition of `checkSlotsSilent`
(`scoutState.cooldownUntil && Date.now() < scoutState.cooldownUntil`;
a zero timestamp is JS-falsy, and `now < 0` is vacuously false, so the
`Option`/`Nat` reading coincides with the JS one). -/
def inCooldown (st : ScoutState) (now : Nat) : Bool :=
  match st.cooldownUntil with
  | some t => now < t
  | none => false

/-- The session visible after the refresh step of a probe. -/
def sessionAfterRefresh (st : ScoutState) (env : ScoutEnv) : Option SessionCtx :=
  (refreshedState st env).activeSession

/-- Whether the probe's session (after the refresh) is authenticated. -/
def sessionAuthed (st : ScoutState) (env : ScoutEnv) : Bool :=
  match sessionAfterRefresh st env with
  | some s => s.isAuthenticated
  | none => false

/-- Whether this probe environment drives `checkSlotsSilent` into its
`catch` block (a thrown fetch, a non-2xx non-429 status, or a 2xx body
whose JSON parse throws). -/
def envThrows (env : ScoutEnv) : Bool :=
  match env.net with
  | .fetchError _ => true
  | .response status _ body =>
    if status = 429 then false
    else if 200 ≤ status ∧ status ≤ 299 then
      match body with
      | .error _ => true
      | .ok _ => false
    else true

/-! ## Scout lifecycle and poll loop (`scout.js`) -/

/-- Embedding of `stopScout()` (`scout.js` lines 482–498): clears the
polling/pause flags and the interval handle, and returns the `STOPPED`
result carrying the cumulative counters. The counters themselves are not
touched. -/
def stopScout (st : ScoutState) : (Nat × Nat) × ScoutState :=
  let st := { st with isPolling := false, isPaused := false, pollIntervalSet := false }
  ((st.totalChecks, st.slotsFound), st)

/-- The synchronous state-reset prefix of `startScout(dataParam, options)`
(`scout.js` lines 389–401), up to but not including the initial
`checkSlotsSilent` probe: stops a previous instance if one is polling,
then sets the flags and `currentDataParam` and zeroes
`consecutiveErrors` and `cooldownUntil`. -/
def startScoutInit (st : ScoutState) (dataParam : String) : ScoutState :=
  let st := if st.isPolling then (stopScout st).2 else st
  { st with isPolling := true, isPaused := false,
            currentDataParam := some dataParam,
            consecutiveErrors := 0, cooldownUntil := none }

/-- The observable steps of a poll-loop run, in order: timer sleeps, the
clearing of the cooldown deadline, probes (with their results), and the
final `broadcastResult` on a find. -/
inductive LoopEvent where
  | sleep (ms : Nat)
  | clearCooldown
  | probe (r : ProbeResult)
  | broadcast (r : ProbeResult)
  deriving DecidableEq, Repr

/-- Is this event a probe? -/
def LoopEvent.isProbe : LoopEvent → Bool
  | .probe _ => true
  | _ => false

/-- Total milliseconds slept before the first probe of the trace. -/
def sleepsBeforeProbe : List LoopEvent → Nat
  | [] => 0
  | .sleep d :: rest => d + sleepsBeforeProbe rest
  | .probe _ :: _ => 0
  | _ :: rest => sleepsBeforeProbe rest

/-- How many times the trace clears the cooldown deadline before the
first probe. -/
def clearsBeforeProbe : List LoopEvent → Nat
  | [] => 0
  | .clearCooldown :: rest => 1 + clearsBeforeProbe rest
  | .probe _ :: _ => 0
  | _ :: rest => clearsBeforeProbe rest

/-- Embedding of `pollLoop(dataParam, options)` from `scout.js` lines
428–475, run for at most `fuel` iterations of the `while` body. The
jitter draws (`getRandomDelay()` results) and the per-probe environments
are supplied as streams indexed by the iteration counter `k`; the clock
`now` advances by exactly the slept durations. Returns the event trace,
the final state and the final clock.

One iteration: exit if not (`isPolling ∧ ¬isPaused`); sleep a jittered
delay (recording `nextCheck`); re-check `isPolling` (in this closed
model nothing can change it mid-sleep, but the check is kept); if the
cooldown deadline is still ahead, sleep the remainder, clear
`cooldownUntil` and continue; otherwise probe via `checkSlotsSilent` —
a `FOUND` result clears `isPolling`, broadcasts and exits, anything else
continues. -/
def pollLoopRun (fuel : Nat) (st : ScoutState) (now : Nat)
    (jitter : Nat → Nat) (envs : Nat → ScoutEnv) (k : Nat) :
    List LoopEvent × ScoutState × Nat :=
  match fuel with
  | 0 => ([], st, now)
  | fuel + 1 =>
    if st.isPolling ∧ ¬ st.isPaused then
      let d := jitter k
      let st := { st with nextCheck := some (now + d) }
      let now := now + d
      if ¬ st.isPolling then
        ([.sleep d], st, now)
      else
        -- the tail of the iteration from the `checkSlotsSilent` call on
        let probeStep :=
          let pr := checkSlotsSilent st now (envs k)
          match pr.1 with
          | .found slots count =>
            ([.sleep d, .probe (.found slots count), .broadcast (.found slots count)],
             { pr.2 with isPolling := false }, now)
          | r =>
            let t := pollLoopRun fuel pr.2 now jitter envs (k + 1)
            (.sleep d :: .probe r :: t.1, t.2.1, t.2.2)
        match st.cooldownUntil with
        | some c =>
          if now < c then
            let rem := c - now
            let st := { st with cooldownUntil := none }
            let t := pollLoopRun fuel st (now + rem) jitter envs (k + 1)
            (.sleep d :: .sleep rem :: .clearCooldown :: t.1, t.2.1, t.2.2)
          else probeStep
        | none => probeStep
    else ([], st, now)

/-! ## Orchestration server (the Hive, `fingerprint_spoof.js`) -/

/-- `CONFIG.heartbeat.interval` of the orchestration server (ms). -/
def heartbeatInterval : Nat := 30000

/-- `CONFIG.heartbeat.timeout` of the orchestration server (ms). -/
def heartbeatTimeout : Nat := 60000

/-- Per-client running totals (`clientState.stats`). -/
structure ClientStats where
  checks : Nat := 0
  slotsFound : Nat := 0
  bookings : Nat := 0
  deriving DecidableEq, Repr

/-- One entry of the server's `clients` map (`fingerprint_spoof.js`
lines 1041–1053): identifier, display name, timestamps, status, stats,
and the WebSocket handle represented by its `readyState` (1 = OPEN). -/
structure ClientRec where
  id : String
  name : String
  connectedAt : Nat := 0
  lastHeartbeat : Nat := 0
  status : String := "idle"
  stats : ClientStats := {}
  readyState : Nat := 1
  deriving DecidableEq, Repr

/-- The server registry: the `clients` map in insertion order (a JS
`Map` preserves insertion order and has unique keys). -/
abbrev Registry := List ClientRec

/-- The server→client messages the modelled handlers emit. -/
inductive ServerMsg where
  | sniperTrigger (source : String) (slots : Option (List Slot)) (timestamp : Nat)
  | bookingComplete (bookedBy : String) (slotData : Option Slot)
  | clientCount (count : Nat)
  deriving DecidableEq, Repr

/-- Embedding of `broadcastToAll(message)` (`fingerprint_spoof.js` lines
1299–1311): sends to every client whose socket `readyState` is 1 (OPEN),
in registry order. Each delivery is recorded as `(clientId, message)`. -/
def broadcastToAll (clients : Registry) (msg : ServerMsg) :
    List (String × ServerMsg) :=
  (clients.filter (fun c => c.readyState == 1)).map (fun c => (c.id, msg))

/-- Embedding of `broadcastToOthers(excludeId, message)`
(`fingerprint_spoof.js` lines 1319–1333): sends to every client other
than `excludeId` whose socket is OPEN. -/
def broadcastToOthers (clients : Registry) (excludeId : String)
    (msg : ServerMsg) : List (String × ServerMsg) :=
  (clients.filter (fun c => c.id != excludeId && c.readyState == 1)).map
    (fun c => (c.id, msg))

/-- The display name used for a sender: its registry record's `name`,
falling back to the raw id when the record is missing
(`client?.name || clientId`). -/
def clientNameOf (clients : Registry) (clientId : String) : String :=
  match clients.find? (fun c => c.id == clientId) with
  | some c => c.name
  | none => clientId

/-- The `client.stats.slotsFound++` update of `handleSlotFound`, applied
pointwise to the registry (a no-op on every other record). -/
def bumpSlotsFound (clientId : String) (c : ClientRec) : ClientRec :=
  if c.id == clientId then
    { c with stats := { c.stats with slotsFound := c.stats.slotsFound + 1 } }
  else c

/-- The `client.stats.bookings++` update of `handleBookingSuccess`. -/
def bumpBookings (clientId : String) (c : ClientRec) : ClientRec :=
  if c.id == clientId then
    { c with stats := { c.stats with bookings := c.stats.bookings + 1 } }
  else c

/-- Embedding of `handleSlotFound(clientId, payload)`
(`fingerprint_spoof.js` lines 1158–1201), minus logging and the Telegram
notification (pure side channels): bumps the reporter's `slotsFound`
stat when the reporter is registered, then broadcasts
`SNIPER_TRIGGER{source, slots, timestamp}` to every *other* open
client. Returns the updated registry and the deliveries. -/
def handleSlotFound (clients : Registry) (clientId : String)
    (slots : Option (List Slot)) (now : Nat) :
    Registry × List (String × ServerMsg) :=
  let source := clientNameOf clients clientId
  let clients := clients.map (bumpSlotsFound clientId)
  (clients, broadcastToOthers clients clientId (.sniperTrigger source slots now))

/-- Embedding of `handleBookingSuccess(clientId, payload)`
(`fingerprint_spoof.js` lines 1209–1248), minus logging and the Telegram
notification: bumps the booker's `bookings` stat when registered, then
broadcasts `BOOKING_COMPLETE{bookedBy, slotData}` to **all** open
clients, the booker included. -/
def handleBookingSuccess (clients : Registry) (clientId : String)
    (slotData : Option Slot) :
    Registry × List (String × ServerMsg) :=
  let bookedBy := clientNameOf clients clientId
  let clients := clients.map (bumpBookings clientId)
  (clients, broadcastToAll clients (.bookingComplete bookedBy slotData))

/-- Whether the heartbeat monitor considers the record stale at `now`:
`now - client.lastHeartbeat > CONFIG.heartbeat.timeout` (in `Nat`
arithmetic a future `lastHeartbeat` truncates to 0, exactly as the JS
negative difference also fails the `>` test). -/
def isStale (now : Nat) (c : ClientRec) : Bool :=
  heartbeatTimeout < now - c.lastHeartbeat

/-- Embedding of the heartbeat-monitor sweep body
(`fingerprint_spoof.js` lines 1352–1364, run every `heartbeatInterval`
ms): every stale client is removed from the registry and its connection
`terminate()`d. Returns the surviving registry and the terminated ids in
registry order. -/
def heartbeatSweep (clients : Registry) (now : Nat) :
    Registry × List String :=
  (clients.filter (fun c => !isStale now c),
   (clients.filter (fun c => isStale now c)).map (fun c => c.id))

/-- Embedding of the `ws.on('close')` handler (`fingerprint_spoof.js`
lines 1081–1085): deletes the record (a no-op when the sweep already
removed it) and re-broadcasts `CLIENT_COUNT{clients.size}`. -/
def closeHandler (clients : Registry) (clientId : String) :
    Registry × List (String × ServerMsg) :=
  let clients := clients.filter (fun c => c.id != clientId)
  (clients, broadcastToAll clients (.clientCount clients.length))

/-- Runs the queued `close` events of the terminated connections, in
order, collecting each handler's `CLIENT_COUNT` broadcast batch. -/
def runCloseHandlers (clients : Registry) :
    List String → Registry × List (List (String × ServerMsg))
  | [] => (clients, [])
  | id :: rest =>
    let (clients', batch) := closeHandler clients id
    let (clients'', batches) := runCloseHandlers clients' rest
    (clients'', batch :: batches)

/-- A full sweep occurrence: the synchronous sweep body followed by the
asynchronous `close` events of the terminated sockets. -/
def sweepAndClose (clients : Registry) (now : Nat) :
    Registry × List (List (String × ServerMsg)) :=
  let (kept, termed) := heartbeatSweep clients now
  runCloseHandlers kept termed

/-! ## Theorems -/

/-- Claim C2, counterexample: the booking-response classifier does not
return the variants the claim's table specifies. At `(302, Location
"/MAR/other")` the code returns the distinct `REDIRECT` variant where
the claim's table demands `Pending`, and at `(200, body
"already booked")` the code returns `BOOKED` (the success check runs
first and "booked" is a substring of "already booked") where the claim's
table demands `Failed`. -/
theorem analyzeBookingResponse_claim_counterexample :
    (analyzeBookingResponse ⟨302, "Found", some "/MAR/other", .ok ""⟩).tag = RTag.redirect ∧
    claimedClassifier ⟨302, "Found", some "/MAR/other", .ok ""⟩ = RTag.pending ∧
    RTag.redirect ≠ RTag.pending ∧
    (analyzeBookingResponse ⟨200, "OK", none, .ok "already booked"⟩).tag = RTag.booked ∧
    claimedClassifier ⟨200, "OK", none, .ok "already booked"⟩ = RTag.failed ∧
    RTag.booked ≠ RTag.failed := by
  refine ⟨by decide, by decide, by decide, by decide, by decide, by decide⟩

/-- Claim C2, amended: for every HTTP response the classifier returns
exactly the variant of the amended table — 301/302 with a truthy
`Location` containing "Payment"/"Confirm"/"Success" gives `Booked` with
that redirect URL and any other 301/302 gives the distinct `Redirect`
variant (not `Pending`); a readable 200 body is checked for the success
phrases "Payment", "Confirmation", "successfully", "booked",
"appointment has been" *before* the failure phrases "not available",
"already booked", "error", "failed", giving `Booked`,
`Failed "Slot no longer available"`, or
`Pending "Response unclear, check manually"` respectively; an unreadable
200 body gives `Pending "Could not parse response"`; 429 gives
`Failed "Rate limited (429)"`; 401/403 give
`Failed "Authentication failed"`; and any other status gives
`Failed "HTTP <code>: <statusText>"`. -/
theorem analyzeBookingResponse_matches_amended_table :
    ∀ r : SniperResponse, analyzeBookingResponse r = amendedClassifier r := by
  intro ⟨s, stx, loc, body⟩
  rcases body with msg | text <;>
    simp only [analyzeBookingResponse, amendedClassifier, containsAny,
      List.any_cons, List.any_nil, Bool.or_false, Bool.or_eq_true] <;>
    split_ifs <;> first | rfl | tauto

/-- Claim C3: while one `executeSniper` invocation is in flight
(`isExecuting` set), a further call returns
`Pending "Already executing"` immediately, with the sniper state
untouched and no network request; and in the two-concurrent-calls
scenario (second call starts during the first call's suspension) the
second call is the blocked one and exactly one booking request is
issued in total. -/
theorem executeSniper_single_flight :
    ∀ (st : SniperState) (env : SniperEnv) (now : Nat)
      (st2 : SniperState) (env1 env2 : SniperEnv) (t1 t2 : Nat),
      (st.isExecuting = true →
        executeSniper st env now = (.pending "Already executing", st, [])) ∧
      (st2.isExecuting = false →
        (extractVerificationToken env1.session).isSome = true →
        (concurrentExecuteSniper st2 env1 env2 t1 t2).2.1 =
          .pending "Already executing" ∧
        countBookingRequests (concurrentExecuteSniper st2 env1 env2 t1 t2).2.2.2 = 1) := by
  intro st env now st2 env1 env2 t1 t2
  constructor
  · intro h
    simp [executeSniper, h]
  · intro h2 hT
    rcases hTok : extractVerificationToken env1.session with _ | t
    · rw [hTok] at hT; simp at hT
    · unfold concurrentExecuteSniper
      simp only [h2, Bool.false_eq_true, if_false]
      refine ⟨by simp [executeSniper], ?_⟩
      rcases hF : env1.fetchResult with m | resp <;>
        simp [executeSniper, h2, hTok, hF, countBookingRequests] <;>
          split_ifs <;> simp

/-- Claim C3, witness: the single-flight facts at concrete inputs — a
blocked call on a busy state, and a concurrent pair in which the first
call (with a session token and a redirect response) fires exactly one
request while the second is rejected. -/
theorem executeSniper_single_flight_witness :
    executeSniper { isExecuting := true } ⟨{}, .error "network"⟩ 5 =
      (.pending "Already executing", { isExecuting := true }, []) ∧
    (concurrentExecuteSniper {}
        ⟨{ headersToken := some "tok" }, .ok ⟨302, "Found", some "/MAR/Payment", .ok ""⟩⟩
        ⟨{}, .error "network"⟩ 1 2).2.1 = .pending "Already executing" ∧
    countBookingRequests (concurrentExecuteSniper {}
        ⟨{ headersToken := some "tok" }, .ok ⟨302, "Found", some "/MAR/Payment", .ok ""⟩⟩
        ⟨{}, .error "network"⟩ 1 2).2.2.2 = 1 := by
  refine ⟨(executeSniper_single_flight { isExecuting := true } ⟨{}, .error "network"⟩ 5
      {} ⟨{}, .error "network"⟩ ⟨{}, .error "network"⟩ 0 0).1 rfl, ?_, ?_⟩
  · exact ((executeSniper_single_flight {} ⟨{}, .error "network"⟩ 0 {}
      ⟨{ headersToken := some "tok" }, .ok ⟨302, "Found", some "/MAR/Payment", .ok ""⟩⟩
      ⟨{}, .error "network"⟩ 1 2).2 rfl (by decide)).1
  · exact ((executeSniper_single_flight {} ⟨{}, .error "network"⟩ 0 {}
      ⟨{ headersToken := some "tok" }, .ok ⟨302, "Found", some "/MAR/Payment", .ok ""⟩⟩
      ⟨{}, .error "network"⟩ 1 2).2 rfl (by decide)).2

/-- Claim C9: every terminating non-blocked `executeSniper` run — the
token-error return, the classified-result return, and the caught
exception — leaves `sniperState.isExecuting` false on exit (the
`finally` block), so the single-flight guard cannot permanently block
later attempts. -/
theorem executeSniper_resets_isExecuting :
    ∀ (st : SniperState) (env : SniperEnv) (now : Nat),
      st.isExecuting = false →
      ((executeSniper st env now).2.1).isExecuting = false := by
  intro st env now h
  rcases hT : extractVerificationToken env.session with _ | t <;>
    rcases hF : env.fetchResult with m | resp <;>
      simp [executeSniper, h, hT, hF] <;> split_ifs <;> simp

/-- Claim C9, witness: the flag is clear after a run that catches a
thrown fetch on the idle initial state. -/
theorem executeSniper_resets_isExecuting_witness :
    ((executeSniper {} ⟨{ headersToken := some "tok" }, .error "network"⟩ 0).2.1).isExecuting
      = false :=
  executeSniper_resets_isExecuting {} ⟨{ headersToken := some "tok" }, .error "network"⟩ 0 rfl

/-! ### Scout helper lemmas -/

/-- `refreshedState` only touches `activeSession`; the rate-limit fields
pass through. -/
theorem refreshedState_fields (st : ScoutState) (env : ScoutEnv) :
    (refreshedState st env).cooldownUntil = st.cooldownUntil ∧
    (refreshedState st env).consecutiveErrors = st.consecutiveErrors ∧
    (refreshedState st env).totalChecks = st.totalChecks ∧
    (refreshedState st env).slotsFound = st.slotsFound := by
  unfold refreshedState
  rcases env.sessionRefresh <;> exact ⟨rfl, rfl, rfl, rfl⟩

/-- When the guard is inactive the probe runs its body. -/
theorem checkSlots_run (st : ScoutState) (now : Nat) (env : ScoutEnv)
    (hcd : inCooldown st now = false) :
    checkSlotsSilent st now env = checkSlotsSilentBody st now env := by
  unfold checkSlotsSilent
  rcases hcu : st.cooldownUntil with _ | t
  · rfl
  · simp [inCooldown, hcu] at hcd
    simp [hcd]

/-- What the `catch` block does to the state once the error counter has
reached `maxRetries`. -/
theorem scoutCatch_state (st1 : ScoutState) (now : Nat) (msg : String)
    (h : maxRetries ≤ st1.consecutiveErrors + 1) :
    (scoutCatch st1 now msg).2.cooldownUntil =
      some (now + min (cooldownDuration * backoffMultiplier ^
        (st1.consecutiveErrors + 1 - maxRetries)) 300000) ∧
    (scoutCatch st1 now msg).2.consecutiveErrors = st1.consecutiveErrors + 1 := by
  simp [scoutCatch, h]

/-- The state as it stands when the probe request is issued: session
refreshed, `lastCheck` stamped, `totalChecks` bumped. -/
def probeStampedState (st : ScoutState) (env : ScoutEnv) (now : Nat) : ScoutState :=
  { refreshedState st env with
      lastCheck := some now
      totalChecks := (refreshedState st env).totalChecks + 1 }

/-- A probe that runs (guard inactive, session authenticated) against a
throwing environment lands in the `catch` block. -/
theorem checkSlots_throw_eq (st : ScoutState) (now : Nat) (env : ScoutEnv)
    (hcd : inCooldown st now = false) (hauth : sessionAuthed st env = true)
    (hthrow : envThrows env = true) :
    ∃ msg, checkSlotsSilent st now env =
      scoutCatch (probeStampedState st env now) now msg := by
  rw [checkSlots_run st now env hcd]
  rcases hsa : sessionAfterRefresh st env with _ | s1
  · rw [sessionAuthed, hsa] at hauth; simp at hauth
  · rw [sessionAuthed, hsa] at hauth
    simp only at hauth
    rw [sessionAfterRefresh] at hsa
    rcases hnet : env.net with msg | ⟨status, stx, body⟩
    · exact ⟨msg, by simp [checkSlotsSilentBody, probeStampedState, hsa, hauth, hnet]⟩
    · simp only [envThrows, hnet] at hthrow
      have h429 : ¬ status = 429 := by
        intro h; simp [h] at hthrow
      by_cases h2xx : 200 ≤ status ∧ status ≤ 299
      · rcases body with msg | data
        · exact ⟨msg, by
            simp [checkSlotsSilentBody, probeStampedState, hsa, hauth, hnet, h429, h2xx]⟩
        · simp [h429, h2xx] at hthrow
      · exact ⟨"HTTP " ++ toString status ++ ": " ++ stx, by
          simp [checkSlotsSilentBody, probeStampedState, hsa, hauth, hnet, h429, h2xx]⟩

/-- One failing probe (any environment that lands in the `catch` block)
started from a state whose cooldown deadline is `c` and whose error
counter is already ≥ 2 leaves a cooldown deadline ≥ `c` and a counter
still ≥ 2, whatever path the probe takes (guard, authentication failure,
or the catch block itself). -/
theorem scout_failing_step (st : ScoutState) (now : Nat) (env : ScoutEnv) (c : Nat)
    (hthrow : envThrows env = true) (hc : st.cooldownUntil = some c)
    (hn : 2 ≤ st.consecutiveErrors) :
    ∃ c', (checkSlotsSilent st now env).2.cooldownUntil = some c' ∧ c ≤ c' ∧
      2 ≤ (checkSlotsSilent st now env).2.consecutiveErrors := by
  have hfields := refreshedState_fields st env
  by_cases hg : now < c
  · have heq : checkSlotsSilent st now env = (.cooldown (ceilSeconds (c - now)) none, st) := by
      unfold checkSlotsSilent; rw [hc]; simp [hg]
    rw [heq]
    exact ⟨c, hc, le_refl c, hn⟩
  · have hbody : checkSlotsSilent st now env = checkSlotsSilentBody st now env := by
      unfold checkSlotsSilent; rw [hc]; simp [hg]
    rw [hbody]
    have hcnow : c ≤ now := Nat.le_of_not_lt hg
    have hmax : maxRetries ≤ st.consecutiveErrors + 1 := by
      unfold maxRetries; omega
    rcases hsa : (refreshedState st env).activeSession with _ | s1
    · refine ⟨c, ?_, le_refl c, ?_⟩
      · simp [checkSlotsSilentBody, hsa, hfields.1, hc]
      · simp [checkSlotsSilentBody, hsa, hfields.2.1]; omega
    · cases hA : s1.isAuthenticated
      · refine ⟨c, ?_, le_refl c, ?_⟩
        · simp [checkSlotsSilentBody, hsa, hA, hfields.1, hc]
        · simp [checkSlotsSilentBody, hsa, hA, hfields.2.1]; omega
      · have hmid : (probeStampedState st env now).consecutiveErrors = st.consecutiveErrors := by
          have h0 : (probeStampedState st env now).consecutiveErrors =
              (refreshedState st env).consecutiveErrors := rfl
          rw [h0, hfields.2.1]
        have hcatch : ∀ msg : String,
            ∃ c', (scoutCatch (probeStampedState st env now) now msg).2.cooldownUntil
                = some c' ∧ c ≤ c' ∧
              2 ≤ (scoutCatch (probeStampedState st env now) now msg).2.consecutiveErrors := by
          intro msg
          have hcs := scoutCatch_state (probeStampedState st env now) now msg
            (by rw [hmid]; exact hmax)
          refine ⟨_, hcs.1, Nat.le_trans hcnow (Nat.le_add_right now _), ?_⟩
          rw [hcs.2, hmid]; omega
        rcases hnet : env.net with msg | ⟨status, stx, body⟩
        · have heq : checkSlotsSilentBody st now env =
              scoutCatch (probeStampedState st env now) now msg := by
            simp [checkSlotsSilentBody, probeStampedState, hsa, hA, hnet]
          rw [heq]; exact hcatch msg
        · simp only [envThrows, hnet] at hthrow
          have h429 : ¬ status = 429 := by
            intro h; simp [h] at hthrow
          by_cases h2xx : 200 ≤ status ∧ status ≤ 299
          · rcases body with msg | data
            · have heq : checkSlotsSilentBody st now env =
                  scoutCatch (probeStampedState st env now) now msg := by
                simp [checkSlotsSilentBody, probeStampedState, hsa, hA, hnet, h429, h2xx]
              rw [heq]; exact hcatch msg
            · simp [h429, h2xx] at hthrow
          · have heq : checkSlotsSilentBody st now env =
                scoutCatch (probeStampedState st env now) now
                  ("HTTP " ++ toString status ++ ": " ++ stx) := by
              simp [checkSlotsSilentBody, probeStampedState, hsa, hA, hnet, h429, h2xx]
            rw [heq]; exact hcatch _

/-- The successive `cooldownUntil` values along a sequence of probes. -/
def cooldownSeq (st : ScoutState) : List (Nat × ScoutEnv) → List (Option Nat)
  | [] => []
  | p :: rest =>
    (checkSlotsSilent st p.1 p.2).2.cooldownUntil ::
      cooldownSeq (checkSlotsSilent st p.1 p.2).2 rest

/-- Every entry of the list is a `some` value, and the values are
nondecreasing starting from `c`. -/
def OptChain : Nat → List (Option Nat) → Prop
  | _, [] => True
  | c, o :: rest => ∃ c', o = some c' ∧ c ≤ c' ∧ OptChain c' rest

/-- Claim C5: once `consecutiveErrors` has reached `maxRetries` (3),
each probe that actually runs (guard inactive, session authenticated)
against a failing environment sets `cooldownUntil` to `now +
cooldownDuration * backoffMultiplier ^ (consecutiveErrors - maxRetries)`
capped at 5 minutes (first conjunct), and across any sequence of
consecutive failing probes the successive `cooldownUntil` deadlines are
all present and nondecreasing (second conjunct). -/
theorem scout_backoff_formula_and_monotone :
    (∀ (st : ScoutState) (now : Nat) (env : ScoutEnv),
      inCooldown st now = false → sessionAuthed st env = true →
      envThrows env = true → maxRetries ≤ st.consecutiveErrors + 1 →
      (checkSlotsSilent st now env).2.cooldownUntil =
        some (now + min (cooldownDuration * backoffMultiplier ^
          (st.consecutiveErrors + 1 - maxRetries)) 300000) ∧
      (checkSlotsSilent st now env).2.consecutiveErrors = st.consecutiveErrors + 1) ∧
    (∀ (st : ScoutState) (c0 : Nat) (probes : List (Nat × ScoutEnv)),
      (∀ p ∈ probes, envThrows p.2 = true) →
      2 ≤ st.consecutiveErrors → st.cooldownUntil = some c0 →
      OptChain c0 (cooldownSeq st probes)) := by
  constructor
  · intro st now env hcd hauth hthrow hmax
    obtain ⟨msg, heq⟩ := checkSlots_throw_eq st now env hcd hauth hthrow
    have hmid : (probeStampedState st env now).consecutiveErrors = st.consecutiveErrors := by
      have h0 : (probeStampedState st env now).consecutiveErrors =
          (refreshedState st env).consecutiveErrors := rfl
      rw [h0, (refreshedState_fields st env).2.1]
    have hcs := scoutCatch_state (probeStampedState st env now) now msg
      (by rw [hmid]; exact hmax)
    rw [heq, hcs.1, hcs.2, hmid]
    exact ⟨rfl, rfl⟩
  · intro st c0 probes
    induction probes generalizing st c0 with
    | nil => intro _ _ _; trivial
    | cons p rest ih =>
      intro hall hn hc0
      obtain ⟨c', hcu, hle, hn'⟩ :=
        scout_failing_step st p.1 p.2 c0 (hall p (List.mem_cons_self p rest)) hc0 hn
      exact ⟨c', hcu, hle,
        ih (checkSlotsSilent st p.1 p.2).2 c'
          (fun q hq => hall q (List.mem_cons_of_mem p hq)) hn' hcu⟩

/-- Claim C5, witness: the backoff formula at a concrete probe (counter
2 → 3, so the exponent is 0 and the new deadline is `now + 60000`), and
the nondecreasing chain along two concrete failing probes. -/
theorem scout_backoff_formula_and_monotone_witness :
    (checkSlotsSilent
        { consecutiveErrors := 2, activeSession := some ⟨true⟩ } 10
        ⟨.ok ⟨true⟩, .ok none, .fetchError "network"⟩).2.cooldownUntil = some 60010 ∧
    OptChain 5 (cooldownSeq
      { consecutiveErrors := 2, cooldownUntil := some 5, activeSession := some ⟨true⟩ }
      [(10, ⟨.ok ⟨true⟩, .ok none, .fetchError "network"⟩),
       (20, ⟨.ok ⟨true⟩, .ok none, .response 500 "Server Error" (.ok .null)⟩)]) := by
  constructor
  · have h := (scout_backoff_formula_and_monotone.1
      { consecutiveErrors := 2, activeSession := some ⟨true⟩ } 10
      ⟨.ok ⟨true⟩, .ok none, .fetchError "network"⟩ rfl rfl rfl (by decide)).1
    rw [h]; rfl
  · exact scout_backoff_formula_and_monotone.2
      { consecutiveErrors := 2, cooldownUntil := some 5, activeSession := some ⟨true⟩ } 5
      [(10, ⟨.ok ⟨true⟩, .ok none, .fetchError "network"⟩),
       (20, ⟨.ok ⟨true⟩, .ok none, .response 500 "Server Error" (.ok .null)⟩)]
      (by intro p hp; fin_cases hp <;> rfl) (by decide) rfl

/-- Claim C4: a probe that runs (guard inactive, session authenticated)
and receives HTTP 429 always yields a `COOLDOWN` result, never an
`ERROR` or an exception: if the identity rotation replies `RESUME`, the
cooldown deadline is cleared (with the error counter zeroed) and the
result carries `remainingSeconds = 2`; otherwise the deadline becomes
`now + 60000` ms, the error counter is incremented, and the result
carries `remainingSeconds = 60`. -/
theorem checkSlots_429_cooldown :
    ∀ (st : ScoutState) (now : Nat) (env : ScoutEnv) (stx : String)
      (body : Except String SlotsJson),
      inCooldown st now = false →
      sessionAuthed st env = true →
      env.net = .response 429 stx body →
      (rotationResumes env = true →
        (checkSlotsSilent st now env).1 = .cooldown 2 (some true) ∧
        (checkSlotsSilent st now env).2.cooldownUntil = none ∧
        (checkSlotsSilent st now env).2.consecutiveErrors = 0) ∧
      (rotationResumes env = false →
        (checkSlotsSilent st now env).1 = .cooldown 60 (some false) ∧
        (checkSlotsSilent st now env).2.cooldownUntil = some (now + 60000) ∧
        (checkSlotsSilent st now env).2.consecutiveErrors = st.consecutiveErrors + 1) ∧
      (∃ rs pr, (checkSlotsSilent st now env).1 = .cooldown rs pr) := by
  intro st now env stx body hcd hauth hnet
  rw [checkSlots_run st now env hcd]
  rcases hsa : sessionAfterRefresh st env with _ | s1
  · rw [sessionAuthed, hsa] at hauth; simp at hauth
  · rw [sessionAuthed, hsa] at hauth
    simp only at hauth
    rw [sessionAfterRefresh] at hsa
    have hfields := refreshedState_fields st env
    cases hrr : rotationResumes env <;>
      simp [checkSlotsSilentBody, hsa, hauth, hnet, hrr,
        hfields.1, hfields.2.1, cooldownDuration]

/-- Claim C4, witness: the two 429 outcomes at concrete inputs — a
successful rotation gives the 2-second cooldown with the deadline
cleared, a failed one gives the 60-second cooldown. -/
theorem checkSlots_429_cooldown_witness :
    (checkSlotsSilent { activeSession := some ⟨true⟩ } 0
      ⟨.ok ⟨true⟩, .ok (some "RESUME"), .response 429 "Too Many Requests" (.ok .null)⟩).1 =
        .cooldown 2 (some true) ∧
    (checkSlotsSilent { activeSession := some ⟨true⟩ } 0
      ⟨.ok ⟨true⟩, .ok none, .response 429 "Too Many Requests" (.ok .null)⟩).1 =
        .cooldown 60 (some false) := by
  constructor
  · exact ((checkSlots_429_cooldown { activeSession := some ⟨true⟩ } 0
      ⟨.ok ⟨true⟩, .ok (some "RESUME"), .response 429 "Too Many Requests" (.ok .null)⟩
      "Too Many Requests" (.ok .null) rfl rfl rfl).1 rfl).1
  · exact ((checkSlots_429_cooldown { activeSession := some ⟨true⟩ } 0
      ⟨.ok ⟨true⟩, .ok none, .response 429 "Too Many Requests" (.ok .null)⟩
      "Too Many Requests" (.ok .null) rfl rfl rfl).2.1 rfl).1

/-- Claim C10: a probe whose provider response is a parseable 2xx resets
`consecutiveErrors` to 0, and a 429 probe whose identity rotation
succeeds also resets it to 0 — the backoff exponent can only ever
reflect an uninterrupted run of failures. -/
theorem checkSlots_resets_consecutiveErrors :
    ∀ (st : ScoutState) (now : Nat) (env : ScoutEnv),
      inCooldown st now = false →
      sessionAuthed st env = true →
      (∀ status stx data, env.net = .response status stx (.ok data) →
        200 ≤ status → status ≤ 299 →
        (checkSlotsSilent st now env).2.consecutiveErrors = 0) ∧
      (∀ stx body, env.net = .response 429 stx body →
        rotationResumes env = true →
        (checkSlotsSilent st now env).2.consecutiveErrors = 0) := by
  intro st now env hcd hauth
  rcases hsa : sessionAfterRefresh st env with _ | s1
  · rw [sessionAuthed, hsa] at hauth; simp at hauth
  · rw [sessionAuthed, hsa] at hauth
    simp only at hauth
    rw [sessionAfterRefresh] at hsa
    constructor
    · intro status stx data hnet h200 h299
      have h429 : ¬ status = 429 := by omega
      rw [checkSlots_run st now env hcd]
      rcases hslots : slotsOf data with _ | slots <;>
        simp [checkSlotsSilentBody, hsa, hauth, hnet, h429, h200, h299, hslots]
    · intro stx body hnet hrot
      rw [checkSlots_run st now env hcd]
      simp [checkSlotsSilentBody, hsa, hauth, hnet, hrot]

/-- Claim C10, witness: the counter drops back to 0 after a parseable
2xx probe, and after a 429 probe whose rotation replies `RESUME`, even
from `consecutiveErrors = 2`. -/
theorem checkSlots_resets_consecutiveErrors_witness :
    (checkSlotsSilent { consecutiveErrors := 2, activeSession := some ⟨true⟩ } 0
      ⟨.ok ⟨true⟩, .ok none,
        .response 200 "OK" (.ok (.arr [⟨"2025-06-01", "42", "09:00"⟩]))⟩).2.consecutiveErrors
      = 0 ∧
    (checkSlotsSilent { consecutiveErrors := 2, activeSession := some ⟨true⟩ } 0
      ⟨.ok ⟨true⟩, .ok (some "RESUME"),
        .response 429 "Too Many Requests" (.ok .null)⟩).2.consecutiveErrors = 0 := by
  constructor
  · exact (checkSlots_resets_consecutiveErrors
      { consecutiveErrors := 2, activeSession := some ⟨true⟩ } 0
      ⟨.ok ⟨true⟩, .ok none,
        .response 200 "OK" (.ok (.arr [⟨"2025-06-01", "42", "09:00"⟩]))⟩ rfl rfl).1
      200 "OK" (.arr [⟨"2025-06-01", "42", "09:00"⟩]) rfl (by decide) (by decide)
  · exact (checkSlots_resets_consecutiveErrors
      { consecutiveErrors := 2, activeSession := some ⟨true⟩ } 0
      ⟨.ok ⟨true⟩, .ok (some "RESUME"),
        .response 429 "Too Many Requests" (.ok .null)⟩ rfl rfl).2
      "Too Many Requests" (.ok .null) rfl rfl

/-- Is this probe result a `FOUND`? -/
def ProbeResult.isFound : ProbeResult → Bool
  | .found _ _ => true
  | _ => false

/-- Claim C8, counterexample: stop followed by restart does not reset
the cumulative counters — a state with `totalChecks = 5` and
`slotsFound = 2` keeps both through `stopScout` and the restart prefix
of `startScout`, where the claim demands they return to 0. -/
theorem stop_restart_counters_counterexample :
    (startScoutInit (stopScout { isPolling := true, totalChecks := 5, slotsFound := 2 :
        ScoutState }).2 "9876").totalChecks = 5 ∧
    (startScoutInit (stopScout { isPolling := true, totalChecks := 5, slotsFound := 2 :
        ScoutState }).2 "9876").slotsFound = 2 ∧
    (5 : Nat) ≠ 0 ∧ (2 : Nat) ≠ 0 := by
  refine ⟨rfl, rfl, by decide, by decide⟩

/-- Claim C8, amended: explicit stop (`stopScout`) followed by restart
(`startScout`) resets `consecutiveErrors` to 0 and `cooldownUntil` to
null (and restores `isPolling`/`isPaused`), while the cumulative
counters `totalChecks` and `slotsFound` persist unchanged across the
stop/restart. -/
theorem stop_restart_partial_reset :
    ∀ (st : ScoutState) (p : String),
      (startScoutInit (stopScout st).2 p).consecutiveErrors = 0 ∧
      (startScoutInit (stopScout st).2 p).cooldownUntil = none ∧
      (startScoutInit (stopScout st).2 p).totalChecks = st.totalChecks ∧
      (startScoutInit (stopScout st).2 p).slotsFound = st.slotsFound ∧
      (startScoutInit (stopScout st).2 p).isPolling = true ∧
      (startScoutInit (stopScout st).2 p).isPaused = false := by
  intro st p
  simp [startScoutInit, stopScout]

/-- Claim C6, counterexample: with a cooldown of 20000 ms pending and a
jitter stream of constant 10000 ms, the total wait before the next probe
is 30000 ms (jitter, then the rest of the cooldown, then another full
jitter), not the 20000 ms remaining cooldown that the claim says is
waited "in place of the standard jittered interval". -/
theorem pollLoop_cooldown_wait_counterexample :
    ({ isPolling := true, cooldownUntil := some 20000,
        activeSession := some ⟨true⟩ : ScoutState }).cooldownUntil = some 20000 ∧
    sleepsBeforeProbe (pollLoopRun 2
      { isPolling := true, cooldownUntil := some 20000, activeSession := some ⟨true⟩ }
      0 (fun _ => 10000)
      (fun _ => ⟨.ok ⟨true⟩, .ok none, .response 200 "OK" (.ok .null)⟩) 0).1 = 30000 ∧
    (30000 : Nat) ≠ 20000 := by
  refine ⟨rfl, by decide, by decide⟩

/-- Claim C6, amended: when a cooldown deadline `c` is pending at the
start of an iteration and still ahead after the jittered wait, the loop
sleeps the standard jittered interval, then additionally sleeps the
remaining cooldown, clears the deadline exactly once, and sleeps a
further jittered interval before the next probe is issued — so the probe
happens no earlier than the deadline, but the total wait before it is
`(c - now) + jitter`, the remaining cooldown plus a full extra jittered
interval, not the remaining cooldown in place of the interval. -/
theorem pollLoop_cooldown_handling :
    ∀ (st : ScoutState) (now c : Nat) (j : Nat → Nat) (envs : Nat → ScoutEnv)
      (r : ProbeResult) (stC : ScoutState),
      st.isPolling = true → st.isPaused = false →
      st.cooldownUntil = some c → now + j 0 < c →
      checkSlotsSilent { st with nextCheck := some (c + j 1), cooldownUntil := none }
        (c + j 1) (envs 1) = (r, stC) →
      (pollLoopRun 2 st now j envs 0).1 =
        .sleep (j 0) :: .sleep (c - (now + j 0)) :: .clearCooldown :: .sleep (j 1) ::
          .probe r :: (if r.isFound then [.broadcast r] else []) ∧
      sleepsBeforeProbe (pollLoopRun 2 st now j envs 0).1 = (c - now) + j 1 ∧
      clearsBeforeProbe (pollLoopRun 2 st now j envs 0).1 = 1 := by
  intro st now c j envs r stC hpoll hpause hcu hlt hprobe
  have harith : now + j 0 + (c - (now + j 0)) = c := by omega
  have harith2 : j 0 + (c - (now + j 0)) = c - now := by omega
  simp only [hpoll, hpause] at hprobe
  rcases r with ⟨rs, pr⟩ | ⟨m, ce⟩ | ⟨slots, count⟩ | _ <;>
    simp [pollLoopRun, hpoll, hpause, hcu, hlt, harith, harith2, hprobe,
      ProbeResult.isFound, sleepsBeforeProbe, clearsBeforeProbe] <;> omega

/-- Claim C6, witness: the amended cooldown-handling facts at the
concrete run of the counterexample (deadline 20000, constant jitter
10000, empty probe). -/
theorem pollLoop_cooldown_handling_witness :
    sleepsBeforeProbe (pollLoopRun 2
      { isPolling := true, cooldownUntil := some 20000, activeSession := some ⟨true⟩ }
      0 (fun _ => 10000)
      (fun _ => ⟨.ok ⟨true⟩, .ok none, .response 200 "OK" (.ok .null)⟩) 0).1 = 30000 ∧
    clearsBeforeProbe (pollLoopRun 2
      { isPolling := true, cooldownUntil := some 20000, activeSession := some ⟨true⟩ }
      0 (fun _ => 10000)
      (fun _ => ⟨.ok ⟨true⟩, .ok none, .response 200 "OK" (.ok .null)⟩) 0).1 = 1 := by
  have h := pollLoop_cooldown_handling
    { isPolling := true, cooldownUntil := some 20000, activeSession := some ⟨true⟩ }
    0 20000 (fun _ => 10000)
    (fun _ => ⟨.ok ⟨true⟩, .ok none, .response 200 "OK" (.ok .null)⟩)
    .empty
    (checkSlotsSilent
      { isPolling := true, cooldownUntil := none, nextCheck := some 30000,
        activeSession := some ⟨true⟩ } 30000
      ⟨.ok ⟨true⟩, .ok none, .response 200 "OK" (.ok .null)⟩).2
    rfl rfl rfl (by decide) (by decide)
  exact ⟨by rw [h.2.1]; decide, h.2.2⟩

/-! ### Server helper lemmas -/

/-- The stats bump of `handleSlotFound` never changes a record's id or
socket state. -/
theorem bumpSlotsFound_id (a : String) (c : ClientRec) :
    (bumpSlotsFound a c).id = c.id ∧ (bumpSlotsFound a c).readyState = c.readyState := by
  unfold bumpSlotsFound
  split_ifs <;> exact ⟨rfl, rfl⟩

/-- The stats bump of `handleBookingSuccess` never changes a record's id
or socket state. -/
theorem bumpBookings_id (a : String) (c : ClientRec) :
    (bumpBookings a c).id = c.id ∧ (bumpBookings a c).readyState = c.readyState := by
  unfold bumpBookings
  split_ifs <;> exact ⟨rfl, rfl⟩

/-- Every open client other than the excluded one receives the message. -/
theorem mem_broadcastToOthers (clients : Registry) (excludeId : String)
    (msg : ServerMsg) (c : ClientRec) (hc : c ∈ clients) (h1 : c.readyState = 1)
    (hne : c.id ≠ excludeId) :
    (c.id, msg) ∈ broadcastToOthers clients excludeId msg := by
  unfold broadcastToOthers
  refine List.mem_map.mpr ⟨c, List.mem_filter.mpr ⟨hc, ?_⟩, rfl⟩
  simp [h1, hne]

/-- Deliveries of `broadcastToOthers` carry the broadcast message and go
only to open registered clients other than the excluded one. -/
theorem of_mem_broadcastToOthers (clients : Registry) (excludeId : String)
    (msg : ServerMsg) (p : String × ServerMsg)
    (hp : p ∈ broadcastToOthers clients excludeId msg) :
    p.2 = msg ∧ ∃ c ∈ clients, c.id = p.1 ∧ c.readyState = 1 ∧ c.id ≠ excludeId := by
  unfold broadcastToOthers at hp
  obtain ⟨c, hcf, heq⟩ := List.mem_map.mp hp
  obtain ⟨hc, hcond⟩ := List.mem_filter.mp hcf
  simp only [Bool.and_eq_true, bne_iff_ne, beq_iff_eq] at hcond
  refine ⟨by rw [← heq], c, hc, by rw [← heq], hcond.2, hcond.1⟩

/-- Every open client receives a `broadcastToAll` message. -/
theorem mem_broadcastToAll (clients : Registry) (msg : ServerMsg) (c : ClientRec)
    (hc : c ∈ clients) (h1 : c.readyState = 1) :
    (c.id, msg) ∈ broadcastToAll clients msg := by
  unfold broadcastToAll
  refine List.mem_map.mpr ⟨c, List.mem_filter.mpr ⟨hc, ?_⟩, rfl⟩
  simp [h1]

/-- Deliveries of `broadcastToAll` carry the broadcast message and go
only to open registered clients. -/
theorem of_mem_broadcastToAll (clients : Registry) (msg : ServerMsg)
    (p : String × ServerMsg) (hp : p ∈ broadcastToAll clients msg) :
    p.2 = msg ∧ ∃ c ∈ clients, c.id = p.1 ∧ c.readyState = 1 := by
  unfold broadcastToAll at hp
  obtain ⟨c, hcf, heq⟩ := List.mem_map.mp hp
  obtain ⟨hc, hcond⟩ := List.mem_filter.mp hcf
  simp only [beq_iff_eq] at hcond
  refine ⟨by rw [← heq], c, hc, by rw [← heq], hcond⟩

/-- Claim C1: on `SLOT_FOUND` from client `a` the server delivers
`SNIPER_TRIGGER{source, slots, timestamp}` to exactly the connected
clients with an open socket other than `a` (every such client receives
it, and every delivery goes to such a client, never back to `a`); on
`BOOKING_SUCCESS` from client `b` it delivers
`BOOKING_COMPLETE{bookedBy, slotData}` to exactly the connected clients
with an open socket, `b` itself included. -/
theorem hive_fanout :
    ∀ (clients : Registry) (a b : String) (slots : Option (List Slot))
      (slotData : Option Slot) (now : Nat),
      (∀ c ∈ clients, c.readyState = 1 → c.id ≠ a →
        (c.id, ServerMsg.sniperTrigger (clientNameOf clients a) slots now) ∈
          (handleSlotFound clients a slots now).2) ∧
      (∀ p ∈ (handleSlotFound clients a slots now).2,
        p.1 ≠ a ∧ p.2 = ServerMsg.sniperTrigger (clientNameOf clients a) slots now ∧
        ∃ c ∈ clients, c.id = p.1 ∧ c.readyState = 1) ∧
      (∀ c ∈ clients, c.readyState = 1 →
        (c.id, ServerMsg.bookingComplete (clientNameOf clients b) slotData) ∈
          (handleBookingSuccess clients b slotData).2) ∧
      (∀ p ∈ (handleBookingSuccess clients b slotData).2,
        p.2 = ServerMsg.bookingComplete (clientNameOf clients b) slotData ∧
        ∃ c ∈ clients, c.id = p.1 ∧ c.readyState = 1) := by
  intro clients a b slots slotData now
  refine ⟨?_, ?_, ?_, ?_⟩
  · intro c hc h1 hne
    have hm : bumpSlotsFound a c ∈ clients.map (bumpSlotsFound a) :=
      List.mem_map_of_mem _ hc
    have hb := bumpSlotsFound_id a c
    have hmem := mem_broadcastToOthers (clients.map (bumpSlotsFound a)) a
      (.sniperTrigger (clientNameOf clients a) slots now) (bumpSlotsFound a c) hm
      (by rw [hb.2]; exact h1) (by rw [hb.1]; exact hne)
    rw [hb.1] at hmem
    exact hmem
  · intro p hp
    obtain ⟨hmsg, c', hc', hid, hrs, hne⟩ :=
      of_mem_broadcastToOthers (clients.map (bumpSlotsFound a)) a
        (.sniperTrigger (clientNameOf clients a) slots now) p hp
    obtain ⟨c, hc, hceq⟩ := List.mem_map.mp hc'
    have hb := bumpSlotsFound_id a c
    refine ⟨by rw [← hid]; exact hne, hmsg, c, hc, ?_, ?_⟩
    · rw [← hid, ← hceq, hb.1]
    · rw [← hceq, hb.2] at hrs; exact hrs
  · intro c hc h1
    have hm : bumpBookings b c ∈ clients.map (bumpBookings b) :=
      List.mem_map_of_mem _ hc
    have hb := bumpBookings_id b c
    have hmem := mem_broadcastToAll (clients.map (bumpBookings b))
      (.bookingComplete (clientNameOf clients b) slotData) (bumpBookings b c) hm
      (by rw [hb.2]; exact h1)
    rw [hb.1] at hmem
    exact hmem
  · intro p hp
    obtain ⟨hmsg, c', hc', hid, hrs⟩ :=
      of_mem_broadcastToAll (clients.map (bumpBookings b))
        (.bookingComplete (clientNameOf clients b) slotData) p hp
    obtain ⟨c, hc, hceq⟩ := List.mem_map.mp hc'
    have hb := bumpBookings_id b c
    refine ⟨hmsg, c, hc, ?_, ?_⟩
    · rw [← hid, ← hceq, hb.1]
    · rw [← hceq, hb.2] at hrs; exact hrs

/-- A three-client fleet used to witness the fan-out facts. -/
def demoFleet : Registry :=
  [{ id := "A", name := "Alpha" }, { id := "B", name := "Bravo" },
   { id := "C", name := "Charlie" }]

/-- A concrete slot used in the witnesses. -/
def demoSlot : Slot := ⟨"2025-06-01", "42", "09:00"⟩

/-- Claim C1, witness: in the three-client fleet, a `SLOT_FOUND` from A
delivers `SNIPER_TRIGGER` to B and C, and a `BOOKING_SUCCESS` from B
delivers `BOOKING_COMPLETE` to A, B and C. -/
theorem hive_fanout_witness :
    ("B", ServerMsg.sniperTrigger "Alpha" (some [demoSlot]) 99) ∈
      (handleSlotFound demoFleet "A" (some [demoSlot]) 99).2 ∧
    ("C", ServerMsg.sniperTrigger "Alpha" (some [demoSlot]) 99) ∈
      (handleSlotFound demoFleet "A" (some [demoSlot]) 99).2 ∧
    ("A", ServerMsg.bookingComplete "Bravo" (some demoSlot)) ∈
      (handleBookingSuccess demoFleet "B" (some demoSlot)).2 ∧
    ("B", ServerMsg.bookingComplete "Bravo" (some demoSlot)) ∈
      (handleBookingSuccess demoFleet "B" (some demoSlot)).2 ∧
    ("C", ServerMsg.bookingComplete "Bravo" (some demoSlot)) ∈
      (handleBookingSuccess demoFleet "B" (some demoSlot)).2 := by
  have h := hive_fanout demoFleet "A" "B" (some [demoSlot]) (some demoSlot) 99
  exact ⟨h.1 { id := "B", name := "Bravo" } (by decide) rfl (by decide),
    h.1 { id := "C", name := "Charlie" } (by decide) rfl (by decide),
    h.2.2.1 { id := "A", name := "Alpha" } (by decide) rfl,
    h.2.2.1 { id := "B", name := "Bravo" } (by decide) rfl,
    h.2.2.1 { id := "C", name := "Charlie" } (by decide) rfl⟩

/-- Close handlers queued for ids that no longer appear in the registry
are pure re-broadcasts: the registry is left untouched and each handler
broadcasts the same decremented `CLIENT_COUNT`. -/
theorem runCloseHandlers_noop (kept : Registry) (ids : List String)
    (h : ∀ t ∈ ids, ∀ c ∈ kept, c.id ≠ t) :
    runCloseHandlers kept ids =
      (kept, ids.map (fun _ => broadcastToAll kept (.clientCount kept.length))) := by
  induction ids with
  | nil => rfl
  | cons t rest ih =>
    have hfix : kept.filter (fun c => c.id != t) = kept :=
      List.filter_eq_self.mpr (fun c hc => by
        simp only [bne_iff_ne, ne_eq, decide_not, Bool.not_eq_false', decide_eq_true_eq]
        exact h t (List.mem_cons_self t rest) c hc)
    simp only [runCloseHandlers, closeHandler, hfix,
      ih (fun q hq c hc => h q (List.mem_cons_of_mem t hq) c hc), List.map_cons]

/-- Claim C7: the heartbeat monitor (a sweep scheduled every
`heartbeatInterval = 30000` ms) removes from the registry exactly the
clients whose `now - lastHeartbeat` exceeds `heartbeatTimeout = 60000`
ms and terminates their connections: after the sweep no surviving record
is stale, every stale record is gone and its connection terminated, and
(for a registry with distinct ids, the JS `Map` invariant) the `close`
events of the terminated sockets leave the surviving registry unchanged
while broadcasting `CLIENT_COUNT` with the decremented size to it. -/
theorem heartbeat_sweep_evicts_stale :
    ∀ (clients : Registry) (now : Nat),
      heartbeatInterval = 30000 ∧ heartbeatTimeout = 60000 ∧
      (∀ c ∈ (heartbeatSweep clients now).1, now - c.lastHeartbeat ≤ heartbeatTimeout) ∧
      (∀ c ∈ clients, heartbeatTimeout < now - c.lastHeartbeat →
        c ∉ (heartbeatSweep clients now).1 ∧ c.id ∈ (heartbeatSweep clients now).2) ∧
      ((clients.map (fun c => c.id)).Nodup →
        (sweepAndClose clients now).1 = (heartbeatSweep clients now).1 ∧
        (sweepAndClose clients now).2 = (heartbeatSweep clients now).2.map
          (fun _ => broadcastToAll (heartbeatSweep clients now).1
            (.clientCount (heartbeatSweep clients now).1.length))) := by
  intro clients now
  refine ⟨rfl, rfl, ?_, ?_, ?_⟩
  · intro c hc
    have hok := (List.mem_filter.mp hc).2
    simp only [isStale, Bool.not_eq_true', decide_eq_false_iff_not, not_lt] at hok
    exact hok
  · intro c hc hstale
    constructor
    · intro hmem
      have hok := (List.mem_filter.mp hmem).2
      simp only [isStale, Bool.not_eq_true', decide_eq_false_iff_not, not_lt] at hok
      omega
    · exact List.mem_map.mpr ⟨c, List.mem_filter.mpr ⟨hc, by
        simp only [isStale, decide_eq_true_eq]; exact hstale⟩, rfl⟩
  · intro hN
    have hPair : clients.Pairwise (fun x y => x.id ≠ y.id) := List.pairwise_map.mp hN
    have hdisj : ∀ t ∈ (heartbeatSweep clients now).2,
        ∀ c ∈ (heartbeatSweep clients now).1, c.id ≠ t := by
      intro t ht c hc heq
      obtain ⟨d, hdf, hdt⟩ := List.mem_map.mp ht
      obtain ⟨hd, hdstale⟩ := List.mem_filter.mp hdf
      obtain ⟨hck, hcok⟩ := List.mem_filter.mp hc
      have hne : c ≠ d := by
        intro h
        rw [h, hdstale] at hcok
        simp at hcok
      have hidne : c.id ≠ d.id :=
        hPair.forall (fun x y h => Ne.symm h) hck hd hne
      exact hidne (heq.trans hdt.symm)
    have hrun := runCloseHandlers_noop (heartbeatSweep clients now).1
      (heartbeatSweep clients now).2 hdisj
    constructor
    · show (runCloseHandlers (heartbeatSweep clients now).1
        (heartbeatSweep clients now).2).1 = _
      rw [hrun]
    · show (runCloseHandlers (heartbeatSweep clients now).1
        (heartbeatSweep clients now).2).2 = _
      rw [hrun]

/-- Claim C7, witness: at `now = 100000` the sweep over a three-client
fleet (last heartbeats 10000, 90000, 39999) keeps only the fresh client,
evicts and terminates the two stale ones, and each close event
re-broadcasts `CLIENT_COUNT{1}` to the surviving client. -/
theorem heartbeat_sweep_evicts_stale_witness :
    ({ id := "X", name := "X", lastHeartbeat := 10000 } : ClientRec) ∉
      (heartbeatSweep [{ id := "X", name := "X", lastHeartbeat := 10000 },
        { id := "Y", name := "Y", lastHeartbeat := 90000 },
        { id := "Z", name := "Z", lastHeartbeat := 39999 }] 100000).1 ∧
    "X" ∈ (heartbeatSweep [{ id := "X", name := "X", lastHeartbeat := 10000 },
        { id := "Y", name := "Y", lastHeartbeat := 90000 },
        { id := "Z", name := "Z", lastHeartbeat := 39999 }] 100000).2 ∧
    (sweepAndClose [{ id := "X", name := "X", lastHeartbeat := 10000 },
        { id := "Y", name := "Y", lastHeartbeat := 90000 },
        { id := "Z", name := "Z", lastHeartbeat := 39999 }] 100000).2 =
      [[("Y", .clientCount 1)], [("Y", .clientCount 1)]] := by
  have h := heartbeat_sweep_evicts_stale
    [{ id := "X", name := "X", lastHeartbeat := 10000 },
     { id := "Y", name := "Y", lastHeartbeat := 90000 },
     { id := "Z", name := "Z", lastHeartbeat := 39999 }] 100000
  have hx := h.2.2.2.1 { id := "X", name := "X", lastHeartbeat := 10000 }
    (by decide) (by decide)
  refine ⟨hx.1, hx.2, ?_⟩
  rw [(h.2.2.2.2 (by decide)).2]
  decide
